import Mathlib

/-!
Verification of `celery_redis_sentinel/backend.py` (class `RedisSentinelBackend`).

Shallow embedding notes.

* Python exception instances are modelled by `PyExc`: the fields record the
  class name (`type(e).__name__`), the defining module (`type(e).__module__`),
  whether the instance exposes a `serialize` attribute (`hasattr(e, 'serialize')`),
  the outcome of calling `e.serialize()` (`none` models the call raising),
  the outcome of `pickle.dumps(e)` (`none` models an unpicklable object; a
  successful pickle under Python 2 is a byte string, modelled as `PyVal.str`),
  and `str(e)`.
* A value that raises inside the `try:` block is modelled with `Option`; the
  bare `except:` catch-all is the `Option.getD` / `match` fallback.
* `json.dumps({'type': ..., 'module': ..., 'data': ...})` is modelled by a
  concrete character-level encoder `encodeEnv` producing the JSON object text
  (dict keys in the order written in the source, default `json.dumps`
  separators, string escaping for the quote, backslash and the common control
  characters); `json.dumps` raising on a non-JSON-encodable `data` value
  (`PyVal.obj`) is modelled by `jsonDumpsEnvelope` returning `none`.
* `json.loads(str(e))`, followed by the `exc['module']`, `exc['type']`,
  `exc['data']` subscripts, is modelled by the character-level decoder
  `parseEnvelope`: it succeeds exactly on the envelope-shaped object text and
  fails (modelling the raised `ValueError` / `KeyError` / `TypeError`, all
  swallowed by the same `except:`) otherwise.
* Interpreter-global state needed by `_unwrap_exc` / `_get_module`
  (`sys.modules`, `importlib.import_module`, `pickle.loads`) is bundled in
  `Interp`; a registry entry that is not an actual module object is
  `RegistryEntry.other`, matching the `isinstance(module, ModuleType)` test.
* `socket_timeout` is a Python float; it is modelled as `ℚ`, where the
  source literal `0.1` is the exact rational `1/10`.
-/

/-- A Python value appearing as the `data` member of the envelope dict:
either a (byte/text) string, which `json.dumps` can encode, or some other
object that `json.dumps` rejects with `TypeError`. -/
inductive PyVal : Type
  | str (s : String)
  | obj
deriving DecidableEq

/-- Model of a Python exception instance as seen by `_wrap_exc`. -/
structure PyExc : Type where
  /-- `type(e).__name__` -/
  typeName : String
  /-- `type(e).__module__` -/
  typeModule : String
  /-- `hasattr(e, 'serialize')` -/
  hasSerialize : Bool
  /-- result of `e.serialize()`; `none` models the call raising -/
  serializeResult : Option PyVal
  /-- result of `pickle.dumps(e)`; `none` models pickling raising -/
  pickled : Option PyVal
  /-- `str(e)` -/
  strRepr : String
deriving DecidableEq

/-- An exception object flowing through `_wrap_exc` / `_unwrap_exc`: either an
arbitrary exception instance, or the wrapper `Exception(payload)` built by
`_wrap_exc` — a base-`Exception` instance whose `str()` is the payload text. -/
inductive PyObj : Type
  | exc (e : PyExc)
  | wrapperExc (payload : String)
deriving DecidableEq

/-- `str(e)` for the objects reaching `_unwrap_exc`; `str` of the wrapper
`Exception(payload)` is the payload text itself. -/
def strOf : PyObj → String
  | .exc e => e.strRepr
  | .wrapperExc p => p

/-- JSON string escaping for one character, as produced by `json.dumps` for
the characters that occur in the envelope fields. -/
def escChar (c : Char) : List Char :=
  if c = '"' then ['\\', '"']
  else if c = '\\' then ['\\', '\\']
  else if c = '\n' then ['\\', 'n']
  else if c = '\t' then ['\\', 't']
  else if c = '\r' then ['\\', 'r']
  else [c]

/-- JSON string escaping of a character list. -/
def escList : List Char → List Char
  | [] => []
  | c :: cs => escChar c ++ escList cs

/-- Decoding of a single JSON escape character (the inverse of `escChar`,
plus the solidus escape that `json.loads` also accepts). -/
def unescChar (c : Char) : Option Char :=
  if c = '"' then some '"'
  else if c = '\\' then some '\\'
  else if c = '/' then some '/'
  else if c = 'n' then some '\n'
  else if c = 't' then some '\t'
  else if c = 'r' then some '\r'
  else none

/-- Scan a JSON string body (the part after the opening quote) up to the
closing quote, undoing escapes; returns the decoded content and the rest of
the input after the closing quote. -/
def scanJStr : List Char → Option (List Char × List Char)
  | [] => none
  | c :: cs =>
    if c = '"' then some ([], cs)
    else if c = '\\' then
      match cs with
      | [] => none
      | u :: cs' =>
        match unescChar u, scanJStr cs' with
        | some uc, some (s, r) => some (uc :: s, r)
        | _, _ => none
    else
      match scanJStr cs with
      | some (s, r) => some (c :: s, r)
      | none => none

/-- Strip an expected literal prefix from the input, failing otherwise. -/
def stripPre : List Char → List Char → Option (List Char)
  | [], s => some s
  | _ :: _, [] => none
  | p :: ps, c :: cs => if c = p then stripPre ps cs else none

/-- The envelope record `{type, module, data}` carried by the wire payload. -/
structure Envelope : Type where
  ty : String
  md : String
  data : String
deriving DecidableEq

/-- Literal text from the opening brace up to the opening quote of the
`type` value. -/
def envPre1 : List Char := "\x7b\"type\": \"".data

/-- Literal text between the `type` value and the `module` value. -/
def envPre2 : List Char := ", \"module\": \"".data

/-- Literal text between the `module` value and the `data` value. -/
def envPre3 : List Char := ", \"data\": \"".data

/-- The `json.dumps` output for the envelope dict
`{'type': t, 'module': m, 'data': d}` (all three values strings). -/
def encodeEnv (t m d : String) : List Char :=
  envPre1 ++ (escList t.data ++ ('"' ::
    (envPre2 ++ (escList m.data ++ ('"' ::
      (envPre3 ++ (escList d.data ++ ('"' :: ['\x7d']))))))))

/-- `json.loads` of a candidate payload, combined with the `exc['module']`,
`exc['type']`, `exc['data']` accesses of `_unwrap_exc`: succeeds exactly when
the text is an envelope-shaped JSON object with three string members. -/
def parseEnvelope (l : List Char) : Option Envelope :=
  match stripPre envPre1 l with
  | none => none
  | some r =>
    match scanJStr r with
    | none => none
    | some (t, r) =>
      match stripPre envPre2 r with
      | none => none
      | some r =>
        match scanJStr r with
        | none => none
        | some (m, r) =>
          match stripPre envPre3 r with
          | none => none
          | some r =>
            match scanJStr r with
            | none => none
            | some (d, r) =>
              if r = ['\x7d'] then some ⟨String.mk t, String.mk m, String.mk d⟩
              else none

/-- `json.dumps({'type': t, 'module': m, 'data': data})`: succeeds with the
object text when `data` is a string, raises (`none`) otherwise. -/
def jsonDumpsEnvelope (t m : String) : PyVal → Option String
  | .str d => some (String.mk (encodeEnv t m d))
  | .obj => none

/-- The body of the `try:` block of `_wrap_exc`: compute `data` from
`e.serialize()` or `pickle.dumps(e)`, then `json.dumps` the envelope dict;
`none` models any of these steps raising. -/
def wrapBody (e : PyExc) : Option String :=
  (if e.hasSerialize then e.serializeResult else e.pickled).bind
    (jsonDumpsEnvelope e.typeName e.typeModule)

/-- `RedisSentinelBackend._wrap_exc`: wrap the exception into a base
`Exception` holding the JSON envelope text, falling back to the original
object on any failure. -/
def _wrap_exc (e : PyExc) : PyObj :=
  match wrapBody e with
  | some p => .wrapperExc p
  | none => .exc e

/-- A Python class object, as needed by the `getattr`/`deserialize` steps of
`_unwrap_exc`. -/
structure PyClass : Type where
  /-- `hasattr(cls, 'deserialize')` -/
  hasDeserialize : Bool
  /-- `cls.deserialize(data)`; `none` models the call raising -/
  deserialize : String → Option PyObj

/-- A Python module object: `getattr(module, name)` yields a class or raises
`AttributeError` (`none`). -/
structure PyModule : Type where
  attrs : String → Option PyClass

/-- An entry of `sys.modules`: an actual module object, or some other value
(the registry can legitimately hold non-module objects, which the
`isinstance(module, ModuleType)` test in `_get_module` rejects). -/
inductive RegistryEntry : Type
  | module (m : PyModule)
  | other

/-- Interpreter-global state used by `_unwrap_exc`: the `sys.modules`
registry, dynamic import, and `pickle.loads` (whose success depends on the
classes available in the process). `none` models the operation raising. -/
structure Interp : Type where
  sysModules : String → Option RegistryEntry
  importModule : String → Option PyModule
  pickleLoads : String → Option PyObj

/-- `RedisSentinelBackend._get_module`: reuse the `sys.modules` entry when it
is an actual module object, otherwise `import_module` (which may raise,
modelled by `none`). -/
def _get_module (I : Interp) (module_name : String) : Option PyModule :=
  match I.sysModules module_name with
  | some (.module m) => some m
  | _ => I.importModule module_name

/-- The body of the `try:` block of `_unwrap_exc`: parse the payload, resolve
the class, and reconstruct via `cls.deserialize` or `pickle.loads`. -/
def unwrapBody (I : Interp) (e : PyObj) : Option PyObj :=
  match parseEnvelope (strOf e).data with
  | none => none
  | some env =>
    match _get_module I env.md with
    | none => none
    | some mod =>
      match mod.attrs env.ty with
      | none => none
      | some cls =>
        if cls.hasDeserialize then cls.deserialize env.data
        else I.pickleLoads env.data

/-- `RedisSentinelBackend._unwrap_exc`: reconstruct the original exception
from the envelope, returning the input unchanged on any failure. -/
def _unwrap_exc (I : Interp) (e : PyObj) : PyObj :=
  (unwrapBody I e).getD e

/-- The Python class (`__name__`) of the object returned by `_wrap_exc`: the
wrapper is a newly constructed instance of the base class `Exception`. -/
def classNameOf : PyObj → String
  | .exc e => e.typeName
  | .wrapperExc _ => "Exception"

/-- A Sentinel endpoint: a `(host, port)` pair. -/
structure Endpoint : Type where
  host : String
  port : Nat
deriving DecidableEq

/-- The transport-options dict, restricted to the three keys the backend
reads; an absent field models a missing dict key. -/
structure TransportOptions : Type where
  sentinels : Option (List Endpoint) := none
  service_name : Option String := none
  socket_timeout : Option ℚ := none
deriving DecidableEq

/-- Python truthiness of the transport-options dict (a dict is truthy iff
non-empty; only the three read keys are modelled). -/
def TransportOptions.isTruthy (o : TransportOptions) : Bool :=
  o.sentinels.isSome || o.service_name.isSome || o.socket_timeout.isSome

/-- The chain `transport_options or _get('CELERY_RESULT_BACKEND_TRANSPORT_OPTIONS') or {}`
from `__init__`: first truthy operand, else the empty dict. -/
def effectiveOptions (passed conf : Option TransportOptions) : TransportOptions :=
  match passed with
  | some o =>
    if o.isTruthy then o
    else match conf with
      | some c => if c.isTruthy then c else {}
      | none => {}
  | none =>
    match conf with
    | some c => if c.isTruthy then c else {}
    | none => {}

/-- A value stored in the connection-parameter dict. -/
inductive ParamV : Type
  | str (s : String)
  | rat (q : ℚ)
  | sentinels (l : List Endpoint)
deriving DecidableEq

/-- The connection-parameter dict (`self.connparams` of the parent
`RedisBackend`, an external collaborator), as a key-value map. -/
def Params : Type := String → Option ParamV

/-- Dict update of a single key. -/
def setParam (p : Params) (k : String) (v : ParamV) : Params :=
  fun k' => if k' = k then some v else p k'

/-- Model of the client built by the `client` cached property.

Modelled from the spec: `get_redis_via_sentinel` and `EnsuredRedisMixin` live
in the repository module `celery_redis_sentinel.redis_sentinel`, which is not
among the given sources; per the spec the Failover-Aware Command Executor is
constructed from the merged connection parameters, and composing the retry
mixin into the client class makes every command run with failover retry
logic. The model records exactly those two observables. -/
structure SentinelClient : Type where
  params : Params
  retryMixin : Bool

/-- Modelled from the spec: `get_redis_via_sentinel(redis_class=..., **params)`
builds the Executor client over the given parameters; `retry` records whether
the passed `redis_class` includes `EnsuredRedisMixin`. -/
def get_redis_via_sentinel (retry : Bool) (params : Params) : SentinelClient :=
  ⟨params, retry⟩

/-- The failure raised by `__init__` when a required transport-options key is
missing: the subscript `self.transport_options[...]` raises a lookup error
for that key (the spec's `ConfigurationError`: fatal, at construction time,
never retried). -/
inductive InitError : Type
  | keyError (key : String)
deriving DecidableEq

/-- The state of a constructed `RedisSentinelBackend`: the fields set by
`__init__` plus the cache slot of the `client` cached property (empty at
construction). -/
structure Backend : Type where
  transport_options : TransportOptions
  connparams : Params
  sentinels : List Endpoint
  service_name : String
  socket_timeout : ℚ
  clientCache : Option SentinelClient := none

/-- The body of `RedisSentinelBackend.__init__` after the parent constructor
(which provides `connparams`): read the two required keys (raising a lookup
error when absent) and the optional `socket_timeout` with default `0.1`. -/
def initBackendOpts (connparams : Params) (opts : TransportOptions) :
    Except InitError Backend :=
  match opts.sentinels with
  | none => .error (.keyError "sentinels")
  | some s =>
    match opts.service_name with
    | none => .error (.keyError "service_name")
    | some n =>
      .ok { transport_options := opts, connparams := connparams, sentinels := s,
            service_name := n, socket_timeout := opts.socket_timeout.getD (1/10) }

/-- `RedisSentinelBackend.__init__`: select the effective transport options,
then read the configuration keys. -/
def initBackend (connparams : Params) (passed conf : Option TransportOptions) :
    Except InitError Backend :=
  initBackendOpts connparams (effectiveOptions passed conf)

/-- The parameter dict built inside the `client` property: `self.connparams`
updated with the three Sentinel-specific fields. -/
def mergedParams (b : Backend) : Params :=
  setParam (setParam (setParam b.connparams
    "sentinels" (.sentinels b.sentinels))
    "service_name" (.str b.service_name))
    "socket_timeout" (.rat b.socket_timeout)

/-- The body of the `client` property: build the Executor client over the
merged parameters, with a `redis_class` that includes `EnsuredRedisMixin`. -/
def clientOf (b : Backend) : SentinelClient :=
  get_redis_via_sentinel true (mergedParams b)

/-- `cached_property` access of `client`: on first access the body runs and
the result is stored; afterwards the stored client is returned. -/
def getClient (b : Backend) : SentinelClient × Backend :=
  match b.clientCache with
  | some c => (c, b)
  | none => (clientOf b, { b with clientCache := some (clientOf b) })

/-! ### Codec lemmas -/

theorem scanJStr_cons_quote (cs : List Char) : scanJStr ('"' :: cs) = some ([], cs) := by
  rw [scanJStr.eq_def]
  simp

theorem scanJStr_cons_backslash (u : Char) (cs : List Char) :
    scanJStr ('\\' :: u :: cs) =
      match unescChar u, scanJStr cs with
      | some uc, some (s, r) => some (uc :: s, r)
      | _, _ => none := by
  simp [scanJStr]

theorem scanJStr_cons_other (c : Char) (cs : List Char) (h1 : c ≠ '"') (h2 : c ≠ '\\') :
    scanJStr (c :: cs) =
      match scanJStr cs with
      | some (s, r) => some (c :: s, r)
      | none => none := by
  rw [scanJStr.eq_def]
  simp [h1, h2]

/-- The JSON string scanner undoes the escaping used by the encoder: scanning
an escaped body followed by the closing quote yields the original content and
the rest of the input. -/
theorem scanJStr_escList (s rest : List Char) :
    scanJStr (escList s ++ '"' :: rest) = some (s, rest) := by
  induction s with
  | nil => simp [escList, scanJStr_cons_quote]
  | cons c cs ih =>
    by_cases h1 : c = '"'
    · subst h1
      simp [escList, escChar, scanJStr_cons_backslash, unescChar, ih]
    · by_cases h2 : c = '\\'
      · subst h2
        simp [escList, escChar, scanJStr_cons_backslash, unescChar, ih]
      · by_cases h3 : c = '\n'
        · subst h3
          simp [escList, escChar, scanJStr_cons_backslash, unescChar, ih]
        · by_cases h4 : c = '\t'
          · subst h4
            simp [escList, escChar, scanJStr_cons_backslash, unescChar, ih]
          · by_cases h5 : c = '\r'
            · subst h5
              simp [escList, escChar, scanJStr_cons_backslash, unescChar, ih]
            · simp only [escList, escChar, if_neg h1, if_neg h2, if_neg h3, if_neg h4,
                if_neg h5, List.cons_append, List.nil_append]
              rw [scanJStr_cons_other c _ h1 h2, ih]

theorem stripPre_append (p r : List Char) : stripPre p (p ++ r) = some r := by
  induction p with
  | nil => simp [stripPre]
  | cons c cs ih => simp [stripPre, ih]

/-- Decode after encode recovers exactly the three envelope fields: the
payload produced by `_wrap_exc` parses back to `{type, module, data}`. -/
theorem parseEnvelope_encodeEnv (t m d : String) :
    parseEnvelope (encodeEnv t m d) = some ⟨t, m, d⟩ := by
  simp only [parseEnvelope, encodeEnv, stripPre_append, scanJStr_escList]
  simp

/-! ### Demo objects used by the witnesses -/

/-- A demo exception whose class supports `serialize`/`deserialize`. -/
def demoExc : PyExc :=
  ⟨"MyError", "myapp.errors", true, some (.str "state"), some (.str "pkl-my"), "boom"⟩

/-- A demo exception lacking `serialize`; its pickle payload is `"pkl-boom"`. -/
def demoPlainExc : PyExc :=
  ⟨"PlainError", "myapp.errors", false, none, some (.str "pkl-boom"), "boom"⟩

/-- A demo exception whose `serialize()` raises and which is unpicklable. -/
def demoBadExc : PyExc :=
  ⟨"BadError", "myapp.errors", true, none, none, "bad"⟩

/-- The class of `demoExc`: `deserialize` rebuilds the exception from its
serialized state. -/
def demoClsD : PyClass :=
  ⟨true, fun d => if d = "state" then some (.exc demoExc) else none⟩

/-- The class of `demoPlainExc`: no `deserialize` capability. -/
def demoClsND : PyClass := ⟨false, fun _ => none⟩

/-- A demo module exposing the two demo classes. -/
def demoModule : PyModule :=
  ⟨fun n => if n = "MyError" then some demoClsD
    else if n = "PlainError" then some demoClsND else none⟩

/-- A demo interpreter state: `myapp.errors` is registered in `sys.modules`,
and `pickle.loads` undoes the pickling of `demoPlainExc`. -/
def demoInterp : Interp :=
  ⟨fun n => if n = "myapp.errors" then some (.module demoModule) else none,
   fun _ => none,
   fun d => if d = "pkl-boom" then some (.exc demoPlainExc) else none⟩

/-- An empty connection-parameter dict. -/
def demoParams : Params := fun _ => none

/-- A freshly constructed demo backend. -/
def demoBackend : Backend :=
  { transport_options :=
      { sentinels := some [⟨"192.168.1.1", 26379⟩],
        service_name := some "master", socket_timeout := some (1/10) },
    connparams := demoParams,
    sentinels := [⟨"192.168.1.1", 26379⟩],
    service_name := "master",
    socket_timeout := 1/10 }

/-! ### Claim theorems -/

/-- Claim C1: wrapping never raises — `_wrap_exc` is a total function by
construction (the `try:`/bare-`except:` of the source is the `match` on
`wrapBody`), and whenever any step of building the envelope fails (serialize
raising, pickling raising, or `json.dumps` raising on non-serializable data,
all modelled by `wrapBody e = none`), `_wrap_exc e` returns the original
exception object `e` itself, unmodified. -/
theorem wrap_exc_fallback_on_failure (e : PyExc) (h : wrapBody e = none) :
    _wrap_exc e = .exc e := by
  simp [_wrap_exc, h]

theorem wrap_exc_fallback_on_failure_witness :
    wrapBody demoBadExc = none ∧ _wrap_exc demoBadExc = .exc demoBadExc :=
  ⟨by decide, wrap_exc_fallback_on_failure demoBadExc (by decide)⟩

/-- Claim C2: unwrapping never raises — `_unwrap_exc` is a total function by
construction, and whenever any step of reconstruction fails (payload not
parseable as the envelope, module missing, class not found, deserialization
or unpickling error, all modelled by `unwrapBody I e = none`), `_unwrap_exc`
returns the input value `e` unchanged. -/
theorem unwrap_exc_fallback_on_failure (I : Interp) (e : PyObj)
    (h : unwrapBody I e = none) : _unwrap_exc I e = e := by
  simp [_unwrap_exc, h]

theorem unwrap_exc_fallback_on_failure_witness :
    unwrapBody demoInterp (.exc demoBadExc) = none ∧
    _unwrap_exc demoInterp (.exc demoBadExc) = .exc demoBadExc :=
  ⟨by decide, unwrap_exc_fallback_on_failure demoInterp (.exc demoBadExc) (by decide)⟩

/-- Claim C3: round-trip law — for an exception instance `e` whose class
supports the serialize/deserialize capabilities (the instance exposes
`serialize` and it succeeds, the class resolved through the module registry
exposes `deserialize`, and `deserialize` honours the contract by rebuilding
an instance `e'` of the same class from the serialized state),
`_unwrap_exc (_wrap_exc e)` returns that same-class object. -/
theorem wrap_unwrap_roundtrip (I : Interp) (e e' : PyExc) (d : String)
    (mod : PyModule) (cls : PyClass)
    (hs : e.hasSerialize = true)
    (hser : e.serializeResult = some (.str d))
    (hmod : _get_module I e.typeModule = some mod)
    (hattr : mod.attrs e.typeName = some cls)
    (hcd : cls.hasDeserialize = true)
    (hde : cls.deserialize d = some (.exc e'))
    (hty : e'.typeName = e.typeName) (hmd : e'.typeModule = e.typeModule) :
    _unwrap_exc I (_wrap_exc e) = .exc e' ∧
    classNameOf (_unwrap_exc I (_wrap_exc e)) = e.typeName ∧
    e'.typeModule = e.typeModule := by
  have hw : _wrap_exc e =
      .wrapperExc (String.mk (encodeEnv e.typeName e.typeModule d)) := by
    simp [_wrap_exc, wrapBody, hs, hser, jsonDumpsEnvelope]
  have hu : _unwrap_exc I (_wrap_exc e) = .exc e' := by
    rw [hw]
    simp [_unwrap_exc, unwrapBody, strOf, parseEnvelope_encodeEnv,
      hmod, hattr, hcd, hde]
  exact ⟨hu, by rw [hu, classNameOf, hty], hmd⟩

theorem wrap_unwrap_roundtrip_witness :
    _unwrap_exc demoInterp (_wrap_exc demoExc) = .exc demoExc ∧
    classNameOf (_unwrap_exc demoInterp (_wrap_exc demoExc)) = demoExc.typeName ∧
    demoExc.typeModule = demoExc.typeModule :=
  wrap_unwrap_roundtrip demoInterp demoExc demoExc "state" demoModule demoClsD
    rfl rfl rfl rfl rfl rfl rfl rfl

/-- Claim C4: when wrapping succeeds (the `data` step yields a string — the
result of `e.serialize()` when the instance exposes `serialize`, otherwise
`pickle.dumps(e)`), `_wrap_exc e` is an `Exception` wrapper whose text
payload is the JSON object text of the envelope, and that payload decodes to
exactly the fields `{type, module, data}` with `type` the class name of `e`,
`module` the defining module, and `data` the chosen serialization. -/
theorem wrap_exc_envelope_fields (e : PyExc) (d : String)
    (hdata : (if e.hasSerialize then e.serializeResult else e.pickled) =
      some (.str d)) :
    _wrap_exc e = .wrapperExc (String.mk (encodeEnv e.typeName e.typeModule d)) ∧
    parseEnvelope (encodeEnv e.typeName e.typeModule d) =
      some ⟨e.typeName, e.typeModule, d⟩ := by
  refine ⟨?_, parseEnvelope_encodeEnv _ _ _⟩
  simp [_wrap_exc, wrapBody, hdata, jsonDumpsEnvelope]

theorem wrap_exc_envelope_fields_witness :
    _wrap_exc demoExc =
      .wrapperExc (String.mk (encodeEnv "MyError" "myapp.errors" "state")) ∧
    parseEnvelope (encodeEnv "MyError" "myapp.errors" "state") =
      some ⟨"MyError", "myapp.errors", "state"⟩ :=
  wrap_exc_envelope_fields demoExc "state" (by decide)

/-- Claim C5: for a value whose text payload parses as a well-formed
envelope, `_unwrap_exc` resolves the envelope's module by reusing the
`sys.modules` entry if and only if that entry is an actual module object
(otherwise importing dynamically), looks the envelope's `type` up as an
attribute of the resolved module, and dispatches on the class's
`deserialize` capability: `cls.deserialize(data)` when present, otherwise
the generic `pickle.loads(data)` fallback (returning the input on failure
of the chosen reconstruction). -/
theorem unwrap_exc_resolution (I : Interp) (e : PyObj) (env : Envelope)
    (hp : parseEnvelope (strOf e).data = some env) :
    (∀ m, I.sysModules env.md = some (.module m) → _get_module I env.md = some m) ∧
    ((∀ m, I.sysModules env.md ≠ some (.module m)) →
      _get_module I env.md = I.importModule env.md) ∧
    (∀ mod cls, _get_module I env.md = some mod → mod.attrs env.ty = some cls →
      (cls.hasDeserialize = true →
        _unwrap_exc I e = (cls.deserialize env.data).getD e) ∧
      (cls.hasDeserialize = false →
        _unwrap_exc I e = (I.pickleLoads env.data).getD e)) := by
  refine ⟨?_, ?_, ?_⟩
  · intro m hm
    simp [_get_module, hm]
  · intro h
    unfold _get_module
    cases he : I.sysModules env.md with
    | none => rfl
    | some entry =>
      cases entry with
      | module m => exact absurd he (h m)
      | other => rfl
  · intro mod cls hmod hattr
    constructor <;> intro hcd <;>
      simp [_unwrap_exc, unwrapBody, hp, hmod, hattr, hcd]

theorem unwrap_exc_resolution_witness :
    _get_module demoInterp "myapp.errors" = some demoModule ∧
    _unwrap_exc demoInterp
        (.wrapperExc (String.mk (encodeEnv "MyError" "myapp.errors" "state"))) =
      (demoClsD.deserialize "state").getD
        (.wrapperExc (String.mk (encodeEnv "MyError" "myapp.errors" "state"))) :=
  ⟨(unwrap_exc_resolution demoInterp
      (.wrapperExc (String.mk (encodeEnv "MyError" "myapp.errors" "state")))
      ⟨"MyError", "myapp.errors", "state"⟩
      (parseEnvelope_encodeEnv "MyError" "myapp.errors" "state")).1
      demoModule rfl,
   ((unwrap_exc_resolution demoInterp
      (.wrapperExc (String.mk (encodeEnv "MyError" "myapp.errors" "state")))
      ⟨"MyError", "myapp.errors", "state"⟩
      (parseEnvelope_encodeEnv "MyError" "myapp.errors" "state")).2.2
      demoModule demoClsD rfl rfl).1 rfl⟩

/-- Claim C6: a transport-options dict missing the required key `sentinels`
or the required key `service_name` makes construction fail at construction
time with the key lookup error (the spec's `ConfigurationError`: fatal,
raised by `__init__`, never retried). -/
theorem init_missing_required_keys (cp : Params) (opts : TransportOptions)
    (h : opts.sentinels = none ∨ opts.service_name = none) :
    ∃ k, initBackendOpts cp opts = .error (.keyError k) := by
  rcases h with h | h
  · exact ⟨"sentinels", by simp [initBackendOpts, h]⟩
  · cases hs : opts.sentinels with
    | none => exact ⟨"sentinels", by simp [initBackendOpts, hs]⟩
    | some s => exact ⟨"service_name", by simp [initBackendOpts, hs, h]⟩

theorem init_missing_required_keys_witness :
    ∃ k, initBackendOpts demoParams {} = .error (.keyError k) :=
  init_missing_required_keys demoParams {} (Or.inl rfl)

/-- Claim C7: end-to-end generic fallback — for an exception lacking the
`serialize` capability (data comes from `pickle.dumps`), whose resolved
class lacks `deserialize`, and whose pickle payload `pickle.loads` inverts,
`_unwrap_exc (_wrap_exc e)` returns the exception back, so the original
message (its `str()`) is recoverable from the generic fallback payload. -/
theorem generic_fallback_roundtrip (I : Interp) (e : PyExc) (d : String)
    (mod : PyModule) (cls : PyClass)
    (hns : e.hasSerialize = false)
    (hpk : e.pickled = some (.str d))
    (hmod : _get_module I e.typeModule = some mod)
    (hattr : mod.attrs e.typeName = some cls)
    (hnd : cls.hasDeserialize = false)
    (hload : I.pickleLoads d = some (.exc e)) :
    _unwrap_exc I (_wrap_exc e) = .exc e := by
  have hw : _wrap_exc e =
      .wrapperExc (String.mk (encodeEnv e.typeName e.typeModule d)) := by
    simp [_wrap_exc, wrapBody, hns, hpk, jsonDumpsEnvelope]
  rw [hw]
  simp [_unwrap_exc, unwrapBody, strOf, parseEnvelope_encodeEnv,
    hmod, hattr, hnd, hload]

theorem generic_fallback_roundtrip_witness :
    _unwrap_exc demoInterp (_wrap_exc demoPlainExc) = .exc demoPlainExc ∧
    demoPlainExc.strRepr = "boom" :=
  ⟨generic_fallback_roundtrip demoInterp demoPlainExc "pkl-boom"
      demoModule demoClsND rfl rfl rfl rfl rfl rfl,
   rfl⟩

/-- Claim C8: the `client` cached property is lazy (built on first access),
cached for the lifetime of the backend instance, built over `connparams`
updated with the three Sentinel-specific fields (leaving all other
connection parameters untouched), and its class includes the retry mixin so
commands run with failover retry logic. -/
theorem client_lazy_cached_merged (b : Backend) :
    (b.clientCache = none →
      getClient b = (clientOf b, { b with clientCache := some (clientOf b) })) ∧
    (∀ c, b.clientCache = some c → getClient b = (c, b)) ∧
    getClient (getClient b).2 = ((getClient b).1, (getClient b).2) ∧
    (clientOf b).retryMixin = true ∧
    (clientOf b).params "sentinels" = some (.sentinels b.sentinels) ∧
    (clientOf b).params "service_name" = some (.str b.service_name) ∧
    (clientOf b).params "socket_timeout" = some (.rat b.socket_timeout) ∧
    (∀ k, k ≠ "sentinels" → k ≠ "service_name" → k ≠ "socket_timeout" →
      (clientOf b).params k = b.connparams k) := by
  refine ⟨?_, ?_, ?_, rfl, ?_, ?_, ?_, ?_⟩
  · intro h
    simp [getClient, h]
  · intro c h
    simp [getClient, h]
  · cases h : b.clientCache with
    | some c => simp [getClient, h]
    | none => simp [getClient, h]
  · simp [clientOf, get_redis_via_sentinel, mergedParams, setParam]
  · simp [clientOf, get_redis_via_sentinel, mergedParams, setParam]
  · simp [clientOf, get_redis_via_sentinel, mergedParams, setParam]
  · intro k h1 h2 h3
    simp [clientOf, get_redis_via_sentinel, mergedParams, setParam, h1, h2, h3]

theorem client_lazy_cached_merged_witness :
    getClient demoBackend =
      (clientOf demoBackend,
        { demoBackend with clientCache := some (clientOf demoBackend) }) ∧
    (clientOf demoBackend).retryMixin = true ∧
    (clientOf demoBackend).params "service_name" = some (.str "master") :=
  ⟨(client_lazy_cached_merged demoBackend).1 rfl,
   (client_lazy_cached_merged demoBackend).2.2.2.1,
   (client_lazy_cached_merged demoBackend).2.2.2.2.2.1⟩

/-- Claim C9: with the two required keys present, construction succeeds; a
missing optional `socket_timeout` key yields the default `0.1` (the exact
rational `1/10`), and a present key yields the configured value. -/
theorem init_socket_timeout_default (cp : Params) (opts : TransportOptions)
    (s : List Endpoint) (n : String)
    (hs : opts.sentinels = some s) (hn : opts.service_name = some n) :
    (opts.socket_timeout = none →
      ∃ b, initBackendOpts cp opts = .ok b ∧ b.socket_timeout = 1/10) ∧
    (∀ q, opts.socket_timeout = some q →
      ∃ b, initBackendOpts cp opts = .ok b ∧ b.socket_timeout = q) := by
  constructor
  · intro ht
    refine ⟨{ transport_options := opts, connparams := cp, sentinels := s,
              service_name := n,
              socket_timeout := opts.socket_timeout.getD (1/10) }, ?_, ?_⟩
    · simp [initBackendOpts, hs, hn]
    · simp [ht]
  · intro q ht
    refine ⟨{ transport_options := opts, connparams := cp, sentinels := s,
              service_name := n,
              socket_timeout := opts.socket_timeout.getD (1/10) }, ?_, ?_⟩
    · simp [initBackendOpts, hs, hn]
    · simp [ht]

theorem init_socket_timeout_default_witness :
    ∃ b, initBackendOpts demoParams
        { sentinels := some [⟨"192.168.1.1", 26379⟩],
          service_name := some "master" } = .ok b ∧
      b.socket_timeout = 1/10 :=
  (init_socket_timeout_default demoParams
    { sentinels := some [⟨"192.168.1.1", 26379⟩], service_name := some "master" }
    [⟨"192.168.1.1", 26379⟩] "master" rfl rfl).1 rfl

/-- Claim C10: the value returned by `_wrap_exc` is always an exception
object of one of exactly two shapes — a newly constructed wrapper of the
base `Exception` class holding the JSON envelope text produced by the
successful body (so the wrapper never preserves the concrete class of `e`),
or the original object `e` itself when the fallback is taken. -/
theorem wrap_exc_result_shape (e : PyExc) :
    _wrap_exc e = .exc e ∨
    ∃ p, wrapBody e = some p ∧ _wrap_exc e = .wrapperExc p ∧
      classNameOf (_wrap_exc e) = "Exception" := by
  unfold _wrap_exc
  cases h : wrapBody e with
  | none => exact Or.inl rfl
  | some p => exact Or.inr ⟨p, rfl, rfl, rfl⟩
